import Mathlib

/-!
# Verification of the PyTractive core against its specification

Shallow embedding of the GPS location resolution, history/analytics,
rate limiting, HTTP error classification and BLE transport logic of the
PyTractive repository (`PyTractive/models.py`, `PyTractive/client.py`,
`PyTractive/http_client.py`, `PyTractive/utils.py`, `PyTractive/bluetooth.py`).

Python floats are modelled as rationals (`ℚ`), except for the haversine
distance computation which is modelled over the reals (`ℝ`) since it uses
transcendental functions.  Python exceptions are modelled by `Except` with an
explicit exception-kind type mirroring the exception classes the code raises
and catches.
-/

namespace PyTractive

/-- Python exception kinds that the modelled code paths raise or catch. -/
inductive PyExc where
  | valueError
  | typeError
  | keyError
  | indexError
deriving Repr, DecidableEq

/-- JSON-like payload values as delivered by the Tractive cloud API. -/
inductive PVal where
  | num (q : ℚ)
  | bool (b : Bool)
  | str (s : String)
  | arr (l : List PVal)
  | dict (entries : List (String × PVal))
  | null

/-- Python truthiness of a payload value (`if not value: ...`). -/
def PVal.truthy : PVal → Bool
  | .num q => q != 0
  | .bool b => b
  | .str s => s != ""
  | .arr l => !l.isEmpty
  | .dict d => !d.isEmpty
  | .null => false

/-- Python `float(value)`: numbers (and booleans) convert, containers and
`None` raise `TypeError`, non-numeric strings raise `ValueError`.  Numeric
strings never occur in the JSON payloads of this API and are not modelled. -/
def pyFloat : PVal → Except PyExc ℚ
  | .num q => .ok q
  | .bool b => .ok (if b then 1 else 0)
  | .str _ => .error .valueError
  | .arr _ => .error .typeError
  | .dict _ => .error .typeError
  | .null => .error .typeError

/-- Python `int()` truncation toward zero of a rational. -/
def pyTrunc (q : ℚ) : ℤ := if 0 ≤ q then ⌊q⌋ else -⌊-q⌋

/-- Python `int(value)`: numbers truncate toward zero, booleans convert,
containers and `None` raise `TypeError`, non-numeric strings `ValueError`. -/
def pyInt : PVal → Except PyExc ℤ
  | .num q => .ok (pyTrunc q)
  | .bool b => .ok (if b then 1 else 0)
  | .str _ => .error .valueError
  | .arr _ => .error .typeError
  | .dict _ => .error .typeError
  | .null => .error .typeError

/-- A parsed JSON object body, as passed to the `from_api_data` parsers. -/
abbrev ApiDict := List (String × PVal)

/-- Python `data.get(key, default)` on a dict. -/
def dictGet (d : ApiDict) (k : String) (default : PVal) : PVal :=
  (List.lookup k d).getD default

/-- Python `data.get(key)` (default `None`). -/
def dictGet? (d : ApiDict) (k : String) : Option PVal :=
  List.lookup k d

/-- Model of `models.GPSLocation`: one GPS fix.  Float fields are rationals,
the timestamp is an integer (epoch seconds, as `int` in the source). -/
structure GPSLocation where
  latitude : ℚ
  longitude : ℚ
  timestamp : ℤ
  uncertainty : ℚ
  altitude : ℚ := 0
  speed : ℚ := 0
  course : ℚ := 0
deriving Repr, DecidableEq

instance : Inhabited GPSLocation := ⟨⟨0, 0, 0, 0, 0, 0, 0⟩⟩

/-- Model of `GPSLocation.__post_init__`: range validation run at construction,
raising `ValueError` on an out-of-range latitude, longitude or negative
uncertainty. -/
def GPSLocation.postInit (loc : GPSLocation) : Except PyExc GPSLocation :=
  if ¬(-90 ≤ loc.latitude ∧ loc.latitude ≤ 90) then .error .valueError
  else if ¬(-180 ≤ loc.longitude ∧ loc.longitude ≤ 180) then .error .valueError
  else if loc.uncertainty < 0 then .error .valueError
  else .ok loc

/-- Model of `GPSLocation.from_api_data`: parse one position record.
`latlong = data.get("latlong", [0.0, 0.0])`; a missing key therefore
defaults to the coordinate pair `(0, 0)`.  `if not latlong or
len(latlong) < 2` raises `ValueError`; the field conversions run in source
order and the constructed dataclass runs `__post_init__` validation.
A truthy non-sequence `latlong` raises `TypeError` from `len()`; a truthy
string would be indexed character-wise in Python, which no API payload
produces, and is modelled as the same `TypeError` branch. -/
def GPSLocation.from_api_data (data : ApiDict) : Except PyExc GPSLocation :=
  let latlong := dictGet data "latlong" (.arr [.num 0, .num 0])
  match latlong with
  | .arr l =>
    match l with
    | a :: b :: _ => do
      let lat ← pyFloat a
      let lon ← pyFloat b
      let ts ← pyInt (dictGet data "time" (.num 0))
      let unc ← pyFloat (dictGet data "pos_uncertainty" (.num 0))
      let alt ← pyFloat (dictGet data "altitude" (dictGet data "alt" (.num 0)))
      let spd ← pyFloat (dictGet data "speed" (.num 0))
      let crs ← pyFloat (dictGet data "course" (.num 0))
      GPSLocation.postInit ⟨lat, lon, ts, unc, alt, spd, crs⟩
    | _ => .error .valueError
  | v => if v.truthy then .error .typeError else .error .valueError

/-- Model of `GPSLocation.distance_to`: haversine great-circle distance in metres,
Earth radius 6,371,000 m, `math.radians(x) = x·π/180`. -/
noncomputable def GPSLocation.distance_to (p other : GPSLocation) : ℝ :=
  let lat1 := (p.latitude : ℝ) * Real.pi / 180
  let lon1 := (p.longitude : ℝ) * Real.pi / 180
  let lat2 := (other.latitude : ℝ) * Real.pi / 180
  let lon2 := (other.longitude : ℝ) * Real.pi / 180
  let dlat := lat2 - lat1
  let dlon := lon2 - lon1
  let hav := Real.sin (dlat / 2) ^ 2 +
    Real.cos lat1 * Real.cos lat2 * Real.sin (dlon / 2) ^ 2
  let c := 2 * Real.arcsin (Real.sqrt hav)
  6371000 * c

/-- Kinds of `TractiveError` subclasses raised by the client code
(`exceptions.py`); `apiError` carries the `status_code` attribute
(`none` when the `APIError` was constructed without one). -/
inductive TractiveErr where
  | authenticationError
  | apiError (status : Option ℕ)
  | gpsDataError
  | trackerNotFound
  | configurationError
deriving Repr, DecidableEq

/-- Body content of a wire response: empty, parsed JSON, or not JSON. -/
inductive HttpBody where
  | empty
  | json (v : PVal)
  | malformed

/-- One wire response as seen by `_handle_response`. -/
structure HttpResponse where
  status : ℕ
  body : HttpBody

/-- Model of `HTTPClient._handle_response` (synchronous client):
401 raises `AuthenticationError`; 429 raises `APIError` with status 429;
any other non-ok status (`response.ok` is `status < 400` in `requests`)
raises `APIError` with that status; an empty body yields `{}`; a non-JSON
body on an ok status raises `APIError` without a status code. -/
def handle_response (r : HttpResponse) : Except TractiveErr PVal :=
  if r.status = 401 then .error .authenticationError
  else if r.status = 429 then .error (.apiError (some 429))
  else if ¬ r.status < 400 then .error (.apiError (some r.status))
  else match r.body with
    | .empty => .ok (.dict [])
    | .json v => .ok v
    | .malformed => .error (.apiError none)

/-- Model of `AsyncHTTPClient._handle_response`: identical classification
except that the ok-range test is `200 <= status < 300`. -/
def async_handle_response (r : HttpResponse) : Except TractiveErr PVal :=
  if r.status = 401 then .error .authenticationError
  else if r.status = 429 then .error (.apiError (some 429))
  else if ¬ (200 ≤ r.status ∧ r.status < 300) then .error (.apiError (some r.status))
  else match r.body with
    | .empty => .ok (.dict [])
    | .json v => .ok v
    | .malformed => .error (.apiError none)

/-- The `status_forcelist` of the urllib3 retry strategy configured in
`HTTPClient._create_session`: only these statuses are retried. -/
def retryStatusForcelist : List ℕ := [429, 500, 502, 503, 504]

/-- Viewing a parsed body as a dict; `body.get(...)` on a non-dict raises
(`AttributeError`-like), modelled as `none`. -/
def PVal.asDict : PVal → Option ApiDict
  | .dict d => some d
  | _ => none

/-- Viewing a parsed body as position segments (`for segment in response:
for point in segment: point.get(...)`).  Any non-list segment or non-dict
point raises an exception the history loop does not catch; since every
such escape is converted to the same `GPSDataError` by the enclosing
handler, the whole decoding is modelled as `none` in that case. -/
def PVal.asSegments : PVal → Option (List (List ApiDict))
  | .arr segs => segs.mapM (fun s => match s with
      | .arr pts => pts.mapM PVal.asDict
      | _ => none)
  | _ => none

instance : Inhabited PVal := ⟨PVal.null⟩

/-- Model of `TractiveClient.get_historical_gps_location(hours_back)` given
the wire response of the positions endpoint for each `hours_back` value:
`if not gps_segments or not gps_segments[0]` raises; otherwise the final
entry of the first segment (`gps_segments[0][-1]`) is parsed.  Every
escaping exception (transport failure, ill-shaped body, parse error) is
converted to `GPSDataError` by the handlers in this method. -/
def get_historical_gps_location (histResp : ℕ → HttpResponse)
    (hours_back : ℕ) : Except TractiveErr GPSLocation :=
  match handle_response (histResp hours_back) with
  | .error _ => .error .gpsDataError
  | .ok body =>
    match body with
    | .arr (PVal.arr (p :: ps) :: _) =>
      match ((p :: ps).getLast (by simp)).asDict with
      | none => .error .gpsDataError
      | some d =>
        match GPSLocation.from_api_data d with
        | .ok loc => .ok loc
        | .error _ => .error .gpsDataError
    | _ => .error .gpsDataError

/-- Model of `TractiveClient._get_gps_fallback`, unrolled over the list of
`hours_back` values to try: the first success wins; each failure (always
surfaced as `GPSDataError` by `get_historical_gps_location`, a kind the
loop catches) moves on; exhaustion raises `GPSDataError`. -/
def fallbackSearch (histResp : ℕ → HttpResponse) :
    List ℕ → Except TractiveErr GPSLocation
  | [] => .error .gpsDataError
  | h :: rest =>
    match get_historical_gps_location histResp h with
    | .ok loc => .ok loc
    | .error _ => fallbackSearch histResp rest

/-- `_get_gps_fallback` iterates `for hours_back in range(1, ceiling + 1)`. -/
def gps_fallback (histResp : ℕ → HttpResponse) (ceiling : ℕ) :
    Except TractiveErr GPSLocation :=
  fallbackSearch histResp (List.range' 1 ceiling)

/-- The outer `except Exception` handler of `get_gps_location`, which
converts every escaping exception to `GPSDataError`. -/
def wrapGps (r : Except TractiveErr GPSLocation) : Except TractiveErr GPSLocation :=
  match r with
  | .ok loc => .ok loc
  | .error _ => .error .gpsDataError

/-- Model of `TractiveClient.get_gps_location` on the cache-miss path (no
previously resolved fix young enough): fetch the primary position report
and parse it; a parse failure of kind `KeyError`/`IndexError`/`ValueError`
triggers the historical fallback; every other escaping exception
(transport errors, ill-shaped bodies, `TypeError`-shaped payloads) is
converted to `GPSDataError` by the outer handler without any fallback. -/
def get_gps_location (primary : HttpResponse) (histResp : ℕ → HttpResponse)
    (ceiling : ℕ) : Except TractiveErr GPSLocation :=
  match handle_response primary with
  | .error _ => .error .gpsDataError
  | .ok body =>
    match body.asDict with
    | none => .error .gpsDataError
    | some d =>
      match GPSLocation.from_api_data d with
      | .ok loc => .ok loc
      | .error .valueError => wrapGps (gps_fallback histResp ceiling)
      | .error .keyError => wrapGps (gps_fallback histResp ceiling)
      | .error .indexError => wrapGps (gps_fallback histResp ceiling)
      | .error _ => .error .gpsDataError

/-- Model of `AsyncTractiveClient.get_gps_location`: fetch and parse the
primary position report; no cache, no fallback; every failure is wrapped
as `GPSDataError`. -/
def async_get_gps_location (primary : HttpResponse) : Except TractiveErr GPSLocation :=
  match async_handle_response primary with
  | .error _ => .error .gpsDataError
  | .ok body =>
    match body.asDict with
    | none => .error .gpsDataError
    | some d =>
      match GPSLocation.from_api_data d with
      | .ok loc => .ok loc
      | .error _ => .error .gpsDataError

/-- The ordering used by `all_locations.sort(key=lambda x: x.timestamp)`. -/
def tsLE (a b : GPSLocation) : Prop := a.timestamp ≤ b.timestamp

instance : DecidableRel tsLE := fun a b =>
  inferInstanceAs (Decidable (a.timestamp ≤ b.timestamp))

instance : IsTotal GPSLocation tsLE := ⟨fun a b => Int.le_total a.timestamp b.timestamp⟩

instance : IsTrans GPSLocation tsLE := ⟨fun _ _ _ => Int.le_trans⟩

/-- Python `list.sort(key=...)` is a stable sort; modelled as insertion
sort by timestamp (stable sorts by the same key agree on every input). -/
def sortByTimestamp (l : List GPSLocation) : List GPSLocation :=
  List.insertionSort tsLE l

/-- The point-collection loop of `get_location_history`: each point is
parsed with `GPSLocation.from_api_data`; `except (ValueError, KeyError):
continue` skips exactly those two exception kinds; any other exception
escapes the loop. -/
def collectPoints : List ApiDict → Except PyExc (List GPSLocation)
  | [] => .ok []
  | p :: rest =>
    match GPSLocation.from_api_data p with
    | .ok loc => do
      let tl ← collectPoints rest
      .ok (loc :: tl)
    | .error .valueError => collectPoints rest
    | .error .keyError => collectPoints rest
    | .error e => .error e

/-- Collection over all segments (`for segment in raw_segments: for point
in segment`). -/
def collectLocations : List (List ApiDict) → Except PyExc (List GPSLocation)
  | [] => .ok []
  | s :: rest => do
    let a ← collectPoints s
    let b ← collectLocations rest
    .ok (a ++ b)

/-- Model of `models.LocationHistory` (the populated dataclass). -/
structure LocationHistory where
  locations : List GPSLocation
  total_distance : ℝ
  max_speed : ℚ
  average_speed : ℚ
  time_span_hours : ℚ

open Classical in
/-- Model of `LocationHistory.__post_init__` validation: empty locations,
negative total distance or negative max speed raise `ValueError`. -/
noncomputable def LocationHistory.postInit (h : LocationHistory) :
    Except PyExc LocationHistory :=
  if h.locations.isEmpty then .error .valueError
  else if h.total_distance < 0 then .error .valueError
  else if h.max_speed < 0 then .error .valueError
  else .ok h

/-- `LocationHistory.start_location` (`locations[0]`). -/
def LocationHistory.start_location (h : LocationHistory) : GPSLocation :=
  h.locations.headI

/-- `LocationHistory.end_location` (`locations[-1]`). -/
def LocationHistory.end_location (h : LocationHistory) : GPSLocation :=
  h.locations.getLastI

/-- Result of `get_location_history`: either the ad hoc
`EmptyLocationHistory` stand-in object or a populated `LocationHistory`. -/
inductive HistoryResult where
  | empty
  | populated (h : LocationHistory)

/-- `location_count` (0 on the empty stand-in). -/
def HistoryResult.location_count : HistoryResult → ℕ
  | .empty => 0
  | .populated h => h.locations.length

/-- `total_distance` (0.0 on the empty stand-in). -/
noncomputable def HistoryResult.total_distance : HistoryResult → ℝ
  | .empty => 0
  | .populated h => h.total_distance

/-- `max_speed` (0.0 on the empty stand-in). -/
def HistoryResult.max_speed : HistoryResult → ℚ
  | .empty => 0
  | .populated h => h.max_speed

/-- `average_speed` (0.0 on the empty stand-in). -/
def HistoryResult.average_speed : HistoryResult → ℚ
  | .empty => 0
  | .populated h => h.average_speed

/-- `time_span_hours` (0.0 on the empty stand-in). -/
def HistoryResult.time_span_hours : HistoryResult → ℚ
  | .empty => 0
  | .populated h => h.time_span_hours

/-- `start_location` (`None` on the empty stand-in). -/
def HistoryResult.start_location : HistoryResult → Option GPSLocation
  | .empty => none
  | .populated h => some h.start_location

/-- `end_location` (`None` on the empty stand-in). -/
def HistoryResult.end_location : HistoryResult → Option GPSLocation
  | .empty => none
  | .populated h => some h.end_location

/-- One iteration of the analytics loop body of `get_location_history`:
the accumulator is `(total_distance, max_speed, speeds)` and `pq` the
consecutive pair `(all_locations[i-1], all_locations[i])`; the pairwise
haversine distance is added to `total_distance`, `max_speed` is raised to
the *reported* `speed` field of the current point when larger
(`if curr_loc.speed > max_speed`), and that reported speed is appended. -/
noncomputable def analyticsStep (acc : ℝ × ℚ × List ℚ)
    (pq : GPSLocation × GPSLocation) : ℝ × ℚ × List ℚ :=
  (acc.1 + pq.1.distance_to pq.2,
   if acc.2.1 < pq.2.speed then pq.2.speed else acc.2.1,
   acc.2.2 ++ [pq.2.speed])

/-- The analytics accumulation loop of `get_location_history`
(`for i in range(1, len(all_locations))`), as a fold of the loop body
over the consecutive pairs, from `total_distance = 0.0`,
`max_speed = 0.0`, `speeds = []`. -/
noncomputable def analyticsLoop (locs : List GPSLocation) : ℝ × ℚ × List ℚ :=
  (locs.zip locs.tail).foldl analyticsStep (0, 0, [])

/-- The list of reported speeds the analytics loop collects: the `speed`
field of every point after the first, in order. -/
def tailSpeeds (locs : List GPSLocation) : List ℚ :=
  locs.tail.map GPSLocation.speed

/-- Model of `TractiveClient.get_location_history` after the raw segments
are fetched: collect the valid points (skipping `ValueError`/`KeyError`
points, any other escape becoming `GPSDataError`); zero valid points yield
the empty stand-in (success, not an error); otherwise the points are
sorted by timestamp; without analytics the aggregates are zero and
`time_span_hours` is the *requested* `hours_back`; with analytics the loop
above runs, `average_speed = sum(speeds)/len(speeds) if speeds else 0.0`
and `time_span_hours` is the actual data span in hours. -/
noncomputable def get_location_history_core (segments : List (List ApiDict))
    (hours_back : ℕ) (include_analytics : Bool) : Except TractiveErr HistoryResult :=
  match collectLocations segments with
  | .error _ => .error .gpsDataError
  | .ok locs =>
    if locs.isEmpty then .ok .empty
    else
      let sorted := sortByTimestamp locs
      if include_analytics = false then
        match LocationHistory.postInit ⟨sorted, 0, 0, 0, (hours_back : ℚ)⟩ with
        | .ok h => .ok (.populated h)
        | .error _ => .error .gpsDataError
      else
        let acc := analyticsLoop sorted
        let speeds := acc.2.2
        let average_speed : ℚ :=
          if ¬ speeds.isEmpty then speeds.sum / (speeds.length : ℚ) else 0
        let actual_time_span : ℚ :=
          ((sorted.getLastI.timestamp - sorted.headI.timestamp : ℤ) : ℚ) / 3600
        match LocationHistory.postInit
            ⟨sorted, acc.1, acc.2.1, average_speed, actual_time_span⟩ with
        | .ok h => .ok (.populated h)
        | .error _ => .error .gpsDataError

/-- Model of `TractiveClient.get_location_history` from the wire response
of the positions endpoint: transport failures and ill-shaped bodies are
converted to `GPSDataError` by the enclosing handler. -/
noncomputable def get_location_history (posResp : HttpResponse)
    (hours_back : ℕ) (include_analytics : Bool) : Except TractiveErr HistoryResult :=
  match handle_response posResp with
  | .error _ => .error .gpsDataError
  | .ok body =>
    match body.asSegments with
    | none => .error .gpsDataError
    | some segs => get_location_history_core segs hours_back include_analytics

/-- Model of `models.TemperatureState`. -/
inductive TemperatureState where
  | normal
  | hot
  | cold
  | unknown
deriving Repr, DecidableEq

/-- Model of `TemperatureState.from_string`: lower-case match with
fallback to UNKNOWN on bad values, `None` (no `.lower()`), or non-string
inputs (the `AttributeError` is caught). -/
def TemperatureState.from_string : PVal → TemperatureState
  | .str s =>
    match s.toLower with
    | "normal" => .normal
    | "hot" => .hot
    | "cold" => .cold
    | "unknown" => .unknown
    | _ => .unknown
  | _ => .unknown

/-- Model of `models.DeviceState` (OPERATIONAL kept uppercase to match
the API response). -/
inductive DeviceState where
  | active
  | inactive
  | operational
  | unknown
deriving Repr, DecidableEq

/-- Model of `DeviceState.from_string`: exact enum-value match first
(which is how `"OPERATIONAL"` is recognised), then a lower-cased match,
with every failure falling back to UNKNOWN. -/
def DeviceState.from_string : PVal → DeviceState
  | .str s =>
    if s = "active" then .active
    else if s = "inactive" then .inactive
    else if s = "OPERATIONAL" then .operational
    else if s = "unknown" then .unknown
    else
      match s.toLower with
      | "active" => .active
      | "inactive" => .inactive
      | "unknown" => .unknown
      | _ => .unknown
  | _ => .unknown

/-- Model of `models.DeviceStatus`.  `battery_level` and `timestamp` are
rationals because the `partial=True` path of `get_device_status` stores
the raw payload numbers without an `int()` conversion; `hardware_status`
is stored as whatever payload value was delivered. -/
structure DeviceStatus where
  battery_level : ℚ
  hardware_status : PVal
  timestamp : ℚ
  temperature_state : TemperatureState := .unknown
  state : DeviceState := .unknown
  battery_save_mode : Bool := false

/-- Model of `DeviceStatus.__post_init__`: battery level outside 0..100 or
a negative timestamp raises `ValueError`. -/
def DeviceStatus.postInit (s : DeviceStatus) : Except PyExc DeviceStatus :=
  if ¬(0 ≤ s.battery_level ∧ s.battery_level ≤ 100) then .error .valueError
  else if s.timestamp < 0 then .error .valueError
  else .ok s

/-- Model of `DeviceStatus.from_api_data(tracker_data, hw_data)`:
`battery_level = int(hw_data.get("battery_level", 0))`, temperature from
the hardware report, state and battery-save flag from the tracker record,
`timestamp = int(hw_data.get("time", 0))`, then validation. -/
def DeviceStatus.from_api_data (tracker_data hw_data : ApiDict) :
    Except PyExc DeviceStatus := do
  let battery ← pyInt (dictGet hw_data "battery_level" (.num 0))
  let temp := TemperatureState.from_string
    (dictGet hw_data "temperature_state" (.str "unknown"))
  let st := DeviceState.from_string (dictGet tracker_data "state" (.str "unknown"))
  let ts ← pyInt (dictGet hw_data "time" (.num 0))
  DeviceStatus.postInit
    ⟨(battery : ℚ), dictGet hw_data "hw_status" (.str "unknown"), (ts : ℚ),
      temp, st, (dictGet tracker_data "battery_save_mode" (.bool false)).truthy⟩

/-- Numeric view of a raw payload value, for the comparisons the
`partial=True` path triggers in `__post_init__` (Python booleans compare
as integers; other non-numeric values make the comparison raise). -/
def pyNumVal : PVal → Option ℚ
  | .num q => some q
  | .bool b => some (if b then 1 else 0)
  | _ => none

/-- Model of `TractiveClient.get_device_status` on the cache-miss path:
fetch the hardware report; with `partial=True` build the minimal status
from the raw payload values (no `int()` conversion); otherwise fetch the
tracker record and merge via `DeviceStatus.from_api_data`.  The enclosing
`except Exception` handler converts every escaping exception — including
an `AuthenticationError` from the transport — to `APIError` (without a
status code). -/
def get_device_status (hwResp trackerResp : HttpResponse)
    (partialFlag : Bool) : Except TractiveErr DeviceStatus :=
  match handle_response hwResp with
  | .error _ => .error (.apiError none)
  | .ok hwBody =>
    match hwBody.asDict with
    | none => .error (.apiError none)
    | some hw =>
      if partialFlag then
        match pyNumVal (dictGet hw "battery_level" (.num 0)),
            pyNumVal (dictGet hw "time" (.num 0)) with
        | some bq, some tq =>
          match DeviceStatus.postInit
              ⟨bq, dictGet hw "hw_status" (.str "unknown"), tq, .unknown, .unknown, false⟩ with
          | .ok s => .ok s
          | .error _ => .error (.apiError none)
        | _, _ => .error (.apiError none)
      else
        match handle_response trackerResp with
        | .error _ => .error (.apiError none)
        | .ok trBody =>
          match trBody.asDict with
          | none => .error (.apiError none)
          | some tr =>
            match DeviceStatus.from_api_data tr hw with
            | .ok s => .ok s
            | .error _ => .error (.apiError none)

/-- Model of `TractiveClient.send_command`: the battery saver posts to its
dedicated endpoint, the other commands issue a GET on the command
endpoint; in both cases the command's wire response goes through
`_handle_response` and every escaping exception is converted to
`APIError` by the enclosing handler. -/
def send_command (cmdResp : HttpResponse) : Except TractiveErr Unit :=
  match handle_response cmdResp with
  | .ok _ => .ok ()
  | .error _ => .error (.apiError none)

/-- Model of `utils.RateLimiter`: the configured ceiling and the list of
recorded call timestamps (wall-clock seconds as rationals, in recording
order). -/
structure RateLimiter where
  calls_per_minute : ℕ
  calls : List ℚ
deriving Repr, DecidableEq

/-- Model of `RateLimiter.wait_if_needed` as a state transition at
wall-clock reading `now`: first evict timestamps with `now - t >= 60`,
then, if the ceiling is reached, sleep `60 - (now - calls[0])` when
positive, finally record `now`.  Returns the slept duration and the
successor state.  (With a zero ceiling and no retained calls Python would
raise an `IndexError` on `calls[0]`; modelled as no sleep, the
configuration never used by the client.) -/
def RateLimiter.wait_if_needed (rl : RateLimiter) (now : ℚ) : ℚ × RateLimiter :=
  let kept := rl.calls.filter (fun t => now - t < 60)
  let sleep : ℚ :=
    if rl.calls_per_minute ≤ kept.length then
      match kept with
      | [] => 0
      | t0 :: _ => if 0 < 60 - (now - t0) then 60 - (now - t0) else 0
    else 0
  (sleep, ⟨rl.calls_per_minute, kept ++ [now]⟩)

/-- Model of `bluetooth.BLEConnectionState`. -/
inductive BLEConnectionState where
  | disconnected
  | connecting
  | connected
  | reconnecting
  | error
deriving Repr, DecidableEq

/-- Failure kinds of the single Python `BLEError` class, distinguished by
the message the code raises ("Not connected to any device",
"Battery read failed: ...", "Unknown BLE command: ...",
"Command failed: ..."). -/
inductive BLEFailure where
  | notConnected
  | readFailed
  | unknownCommand
  | writeFailed
deriving Repr, DecidableEq

/-- One backend operation attempted against the radio stack. -/
inductive BackendOp where
  | read (uuid : String)
  | write (uuid : String) (payload : List ℕ)
deriving Repr, DecidableEq

/-- Behaviour of the selected radio backend: `none` models a raising
backend call, `some` its returned value. -/
structure BLEBackend where
  readResult : String → Option (List ℕ)
  writeResult : String → List ℕ → Option Bool

/-- `TractiveBLEClient.BATTERY_LEVEL_CHAR_UUID`. -/
def BATTERY_LEVEL_CHAR_UUID : String := "00002a19-0000-1000-8000-00805f9b34fb"

/-- `TractiveBLEClient.COMMAND_CHAR_UUID`. -/
def COMMAND_CHAR_UUID : String := "c1670003-2c5d-42fd-be9b-1f2dd6681818"

/-- The closed `TractiveBLEClient.BLE_COMMANDS` table (payload bytes). -/
def BLE_COMMANDS : List (String × List ℕ) :=
  [("light_on", [0x0b, 0x00, 0x08, 0x02, 0x80, 0, 0, 0, 0, 0, 0, 0, 0x4b]),
   ("light_off", [0x0b, 0x00, 0x08, 0x02, 0x01, 0, 0, 0, 0, 0, 0, 0, 0x01]),
   ("sound_on", [0x0b, 0x00, 0x19, 0x02, 0x20, 0x01, 0x04, 0x01, 0x02, 0x01, 0x01, 0x01, 0xe0]),
   ("sound_off", [0x0b, 0x00, 0x19, 0x02, 0x01, 0, 0, 0, 0, 0, 0, 0, 0x01])]

/-- Python `int.from_bytes(data, byteorder='little')`. -/
def fromBytesLE (bs : List ℕ) : ℕ := bs.foldr (fun b acc => b + 256 * acc) 0

/-- Model of `TractiveBLEClient.get_battery_level`: the connection-state
guard raises the "Not connected" `BLEError` before any backend access;
otherwise the battery characteristic is read, empty data or a raising
backend becoming the wrapped "Battery read failed" `BLEError`.  The second
component is the trace of backend operations attempted. -/
def get_battery_level (st : BLEConnectionState) (backend : BLEBackend) :
    Except BLEFailure ℕ × List BackendOp :=
  if st ≠ .connected then (.error .notConnected, [])
  else
    match backend.readResult BATTERY_LEVEL_CHAR_UUID with
    | none => (.error .readFailed, [.read BATTERY_LEVEL_CHAR_UUID])
    | some data =>
      if data.isEmpty then (.error .readFailed, [.read BATTERY_LEVEL_CHAR_UUID])
      else (.ok (fromBytesLE data), [.read BATTERY_LEVEL_CHAR_UUID])

/-- Model of `TractiveBLEClient.send_command`: the connection-state guard
raises the "Not connected" `BLEError` first; then the command key is built
(`f"{command}_{state}"` when `state` is truthy) and looked up in the
closed table; then the payload is written to the command characteristic,
a `False` return or a raising backend becoming the wrapped "Command
failed" `BLEError`. -/
def ble_send_command (st : BLEConnectionState) (backend : BLEBackend)
    (command : String) (state : Option String) :
    Except BLEFailure Unit × List BackendOp :=
  if st ≠ .connected then (.error .notConnected, [])
  else
    let command_key :=
      match state with
      | some s => if s ≠ "" then command ++ "_" ++ s else command
      | none => command
    match List.lookup command_key BLE_COMMANDS with
    | none => (.error .unknownCommand, [])
    | some payload =>
      match backend.writeResult COMMAND_CHAR_UUID payload with
      | some true => (.ok (), [.write COMMAND_CHAR_UUID payload])
      | some false => (.error .writeFailed, [.write COMMAND_CHAR_UUID payload])
      | none => (.error .writeFailed, [.write COMMAND_CHAR_UUID payload])

/-- The per-pair running speed as the specification states it (spec §4.8,
history analytics): haversine distance divided by elapsed seconds, times
3.6 for km/h, with a zero-elapsed pair contributing 0.  Stated from the
spec's words, for comparison with the code's analytics loop, which uses
the *reported* `speed` field instead. -/
noncomputable def specPairSpeed (a b : GPSLocation) : ℝ :=
  if b.timestamp - a.timestamp = 0 then 0
  else a.distance_to b / ((b.timestamp - a.timestamp : ℤ) : ℝ) * 3.6

/-! Concrete payloads used to instantiate the claims. -/

/-- A valid point: coordinates (10, 20), time 0, no reported speed. -/
def ptSameA : ApiDict := [("latlong", .arr [.num 10, .num 20]), ("time", .num 0)]

/-- A valid point at the same coordinates (10, 20), time 10, reported
speed 5 km/h. -/
def ptSameB : ApiDict :=
  [("latlong", .arr [.num 10, .num 20]), ("time", .num 10), ("speed", .num 5)]

/-- One segment holding the two same-coordinate points. -/
def segsSameCoords : List (List ApiDict) := [[ptSameA, ptSameB]]

/-- A primary position report whose payload is `{}`: the coordinate pair
is missing entirely. -/
def primaryNoLatlong : HttpResponse := ⟨200, .json (.dict [])⟩

/-- A primary position report whose `latlong` is present but empty. -/
def primaryEmptyLatlong : HttpResponse :=
  ⟨200, .json (.dict [("latlong", .arr [])])⟩

/-- A parseable historical point: coordinates (7, 8), time 999. -/
def histPointGood : ApiDict :=
  [("latlong", .arr [.num 7, .num 8]), ("time", .num 999)]

/-- A history oracle answering every `hours_back` query with one segment
holding the single good point. -/
def histGood : ℕ → HttpResponse :=
  fun _ => ⟨200, .json (.arr [.arr [.dict histPointGood]])⟩

/-- A history oracle whose first segment is *not* in chronological order:
the positionally last entry has time 100, an earlier entry time 200. -/
def histUnsorted : ℕ → HttpResponse :=
  fun _ => ⟨200, .json (.arr [.arr
    [.dict [("latlong", .arr [.num 1, .num 2]), ("time", .num 200)],
     .dict [("latlong", .arr [.num 1, .num 2]), ("time", .num 100)]]])⟩

/-- Two valid points at (1, 2), one hour apart (times 0 and 3600). -/
def segsOneHour : List (List ApiDict) :=
  [[[("latlong", .arr [.num 1, .num 2]), ("time", .num 0)],
    [("latlong", .arr [.num 1, .num 2]), ("time", .num 3600)]]]

/-- Three valid points with timestamps [100, 50, 150] in input order, at
pairwise distinct coordinates. -/
def segsOutOfOrder : List (List ApiDict) :=
  [[[("latlong", .arr [.num 1, .num 1]), ("time", .num 100)],
    [("latlong", .arr [.num 2, .num 2]), ("time", .num 50)],
    [("latlong", .arr [.num 3, .num 3]), ("time", .num 150)]]]

/-- The parse of the time-50 point of `segsOutOfOrder`. -/
def loc50 : GPSLocation := ⟨2, 2, 50, 0, 0, 0, 0⟩

/-- The parse of the time-100 point of `segsOutOfOrder`. -/
def loc100 : GPSLocation := ⟨1, 1, 100, 0, 0, 0, 0⟩

/-- The parse of the time-150 point of `segsOutOfOrder`. -/
def loc150 : GPSLocation := ⟨3, 3, 150, 0, 0, 0, 0⟩

/-- A point whose coordinate elements are JSON `null`: `float(None)`
raises `TypeError`, an exception kind the history point loop does not
catch. -/
def ptNullCoords : ApiDict := [("latlong", .arr [.null, .null])]

/-- A point whose `latlong` is present but empty (a `ValueError` parse,
the kind the history point loop skips). -/
def ptEmptyLatlong : ApiDict := [("latlong", .arr [])]

/-- A payload whose `latlong` holds two parseable floats with an
out-of-range latitude (200). -/
def dictBadLatitude : ApiDict := [("latlong", .arr [.num 200, .num 0])]

/-! ## Helper lemmas -/

/-- The haversine distance is nonnegative (for any inputs: `Real.sqrt`
is nonnegative, hence so is the arcsine). -/
theorem distance_to_nonneg (p q : GPSLocation) : 0 ≤ p.distance_to q := by
  unfold GPSLocation.distance_to
  simp only []
  have h1 : (0:ℝ) ≤ Real.arcsin (Real.sqrt
      (Real.sin (((q.latitude : ℝ) * Real.pi / 180 - (p.latitude : ℝ) * Real.pi / 180) / 2) ^ 2 +
        Real.cos ((p.latitude : ℝ) * Real.pi / 180) * Real.cos ((q.latitude : ℝ) * Real.pi / 180) *
          Real.sin (((q.longitude : ℝ) * Real.pi / 180 - (p.longitude : ℝ) * Real.pi / 180) / 2) ^ 2)) :=
    Real.arcsin_nonneg.mpr (Real.sqrt_nonneg _)
  nlinarith [h1]

/-- Two fixes at the same coordinates are at haversine distance zero. -/
theorem distance_to_self_coords (p q : GPSLocation)
    (hlat : p.latitude = q.latitude) (hlon : p.longitude = q.longitude) :
    p.distance_to q = 0 := by
  unfold GPSLocation.distance_to
  rw [hlat, hlon]
  simp

/-- The populated-history validation passes on nonempty locations and
nonnegative total distance and max speed. -/
theorem LocationHistory.postInit_ok (h : LocationHistory)
    (hne : h.locations ≠ []) (ht : 0 ≤ h.total_distance) (hm : 0 ≤ h.max_speed) :
    h.postInit = .ok h := by
  unfold LocationHistory.postInit
  simp [List.isEmpty_iff, hne, not_lt.mpr ht, not_lt.mpr hm]

/-- A seed is a lower bound on a left max-fold. -/
theorem le_foldl_max (l : List ℚ) (m : ℚ) : m ≤ l.foldl max m := by
  induction l generalizing m with
  | nil => exact le_refl m
  | cons a t ih => exact le_trans (le_max_left m a) (ih (max m a))

/-- A left max-fold is either the seed or one of the elements. -/
theorem foldl_max_mem (l : List ℚ) (m : ℚ) :
    l.foldl max m = m ∨ l.foldl max m ∈ l := by
  induction l generalizing m with
  | nil => left; rfl
  | cons a t ih =>
    rcases ih (max m a) with h | h
    · rcases le_total a m with h' | h'
      · left; rw [List.foldl_cons] at *; rw [h, max_eq_left h']
      · right; rw [List.foldl_cons, h, max_eq_right h']; exact List.mem_cons_self a t
    · right; exact List.mem_cons_of_mem a h

/-- Every element is bounded by the left max-fold. -/
theorem foldl_max_ge (l : List ℚ) (m s : ℚ) (hs : s ∈ l) : s ≤ l.foldl max m := by
  induction l generalizing m with
  | nil => cases hs
  | cons a t ih =>
    rcases List.mem_cons.mp hs with rfl | h
    · exact le_trans (le_max_right m s) (le_foldl_max t (max m s))
    · exact ih (max m a) h

/-- The loop-body update of the running maximum is the lattice max. -/
theorem if_lt_eq_max (m s : ℚ) : (if m < s then s else m) = max m s := by
  by_cases h : m < s
  · simp [h, max_eq_right h.le]
  · simp [h, max_eq_left (not_lt.mp h)]

/-- Characterisation of the analytics fold from an arbitrary accumulator:
the total accumulates the pairwise distances, the maximum is a max-fold of
the later points' reported speeds, and the speeds list collects them. -/
theorem analytics_foldl (P : List (GPSLocation × GPSLocation)) (t : ℝ) (m : ℚ)
    (sp : List ℚ) :
    P.foldl analyticsStep (t, m, sp) =
      (t + (P.map (fun pq => pq.1.distance_to pq.2)).sum,
       (P.map (fun pq => pq.2.speed)).foldl max m,
       sp ++ P.map (fun pq => pq.2.speed)) := by
  induction P generalizing t m sp with
  | nil => simp
  | cons p ps ih =>
    simp only [List.foldl_cons, List.map_cons, List.sum_cons, analyticsStep]
    rw [ih, if_lt_eq_max]
    refine Prod.ext ?_ (Prod.ext ?_ ?_)
    · simp [add_assoc]
    · rfl
    · simp

/-- Mapping the second components of the self-zip with the tail recovers
the tail. -/
theorem zip_tail_map_snd (l : List GPSLocation) (f : GPSLocation → ℚ) :
    (l.zip l.tail).map (fun pq => f pq.2) = l.tail.map f := by
  induction l with
  | nil => rfl
  | cons a t ih =>
    cases t with
    | nil => rfl
    | cons b t' =>
      simp only [List.tail_cons, List.zip_cons_cons, List.map_cons] at *
      rw [ih]

/-- The sort used by the history engine is sorted by timestamp. -/
theorem sortByTimestamp_sorted (l : List GPSLocation) :
    List.Sorted tsLE (sortByTimestamp l) :=
  List.sorted_insertionSort tsLE l

/-- The sort used by the history engine is a permutation of its input. -/
theorem sortByTimestamp_perm (l : List GPSLocation) :
    (sortByTimestamp l).Perm l :=
  List.perm_insertionSort tsLE l

/-- Sorting a nonempty list yields a nonempty list. -/
theorem sortByTimestamp_ne_nil (l : List GPSLocation) (h : l ≠ []) :
    sortByTimestamp l ≠ [] := by
  intro hc
  exact h (((sortByTimestamp_perm l).symm.trans (hc ▸ List.Perm.refl _)).eq_nil)

/-- Characterisation of `get_location_history_core` without analytics:
valid points sorted, zero aggregates, and `time_span_hours` equal to the
*requested* `hours_back`. -/
theorem core_no_analytics_eq (segments : List (List ApiDict)) (hb : ℕ)
    (locs : List GPSLocation) (hcol : collectLocations segments = .ok locs)
    (hne : locs ≠ []) :
    get_location_history_core segments hb false =
      .ok (.populated ⟨sortByTimestamp locs, 0, 0, 0, (hb : ℚ)⟩) := by
  unfold get_location_history_core
  rw [hcol]
  have hie : locs.isEmpty = false := by simpa [List.isEmpty_iff] using hne
  have hpi := LocationHistory.postInit_ok ⟨sortByTimestamp locs, 0, 0, 0, (hb : ℚ)⟩
    (sortByTimestamp_ne_nil locs hne) (le_refl 0) (le_refl 0)
  simp only [hie, Bool.false_eq_true, if_false, reduceIte, hpi]

/-- Characterisation of `get_location_history_core` with analytics:
valid points sorted; `total_distance` the sum of consecutive pairwise
haversine distances; `max_speed` a max-fold (seeded 0) of the later
points' reported speeds; `average_speed` their simple mean (0 when there
is no pair); `time_span_hours` the actual data span. -/
theorem core_analytics_eq (segments : List (List ApiDict)) (hb : ℕ)
    (locs : List GPSLocation) (hcol : collectLocations segments = .ok locs)
    (hne : locs ≠ []) :
    get_location_history_core segments hb true =
      .ok (.populated
        ⟨sortByTimestamp locs,
         (((sortByTimestamp locs).zip (sortByTimestamp locs).tail).map
           (fun pq => pq.1.distance_to pq.2)).sum,
         (tailSpeeds (sortByTimestamp locs)).foldl max 0,
         if ¬(tailSpeeds (sortByTimestamp locs)).isEmpty then
           (tailSpeeds (sortByTimestamp locs)).sum /
             ((tailSpeeds (sortByTimestamp locs)).length : ℚ)
         else 0,
         (((sortByTimestamp locs).getLastI.timestamp -
             (sortByTimestamp locs).headI.timestamp : ℤ) : ℚ) / 3600⟩) := by
  unfold get_location_history_core
  rw [hcol]
  have hie : locs.isEmpty = false := by simpa [List.isEmpty_iff] using hne
  have hloop : analyticsLoop (sortByTimestamp locs) =
      ((((sortByTimestamp locs).zip (sortByTimestamp locs).tail).map
          (fun pq => pq.1.distance_to pq.2)).sum,
        (tailSpeeds (sortByTimestamp locs)).foldl max 0,
        tailSpeeds (sortByTimestamp locs)) := by
    unfold analyticsLoop
    rw [analytics_foldl]
    have hsnd : (((sortByTimestamp locs).zip (sortByTimestamp locs).tail).map
        (fun pq => pq.2.speed)) = tailSpeeds (sortByTimestamp locs) :=
      zip_tail_map_snd (sortByTimestamp locs) GPSLocation.speed
    rw [hsnd]
    simp
  have htot : (0:ℝ) ≤ (((sortByTimestamp locs).zip (sortByTimestamp locs).tail).map
      (fun pq => pq.1.distance_to pq.2)).sum := by
    apply List.sum_nonneg
    intro x hx
    rcases List.mem_map.mp hx with ⟨pq, _, rfl⟩
    exact distance_to_nonneg pq.1 pq.2
  have hmax : (0:ℚ) ≤ (tailSpeeds (sortByTimestamp locs)).foldl max 0 :=
    le_foldl_max _ 0
  have hpi := LocationHistory.postInit_ok
    ⟨sortByTimestamp locs,
     (((sortByTimestamp locs).zip (sortByTimestamp locs).tail).map
       (fun pq => pq.1.distance_to pq.2)).sum,
     (tailSpeeds (sortByTimestamp locs)).foldl max 0,
     if ¬(tailSpeeds (sortByTimestamp locs)).isEmpty then
       (tailSpeeds (sortByTimestamp locs)).sum /
         ((tailSpeeds (sortByTimestamp locs)).length : ℚ)
     else 0,
     (((sortByTimestamp locs).getLastI.timestamp -
         (sortByTimestamp locs).headI.timestamp : ℤ) : ℚ) / 3600⟩
    (sortByTimestamp_ne_nil locs hne) htot hmax
  simp only [hie, Bool.false_eq_true, if_false, reduceIte, hloop, hpi]
  simp

/-- Inversion of the populated-history validation: success returns the
validated value itself. -/
theorem LocationHistory.postInit_inversion (h lh : LocationHistory)
    (hp : h.postInit = .ok lh) : lh = h := by
  unfold LocationHistory.postInit at hp
  split_ifs at hp
  all_goals
    first
    | exact Except.noConfusion hp
    | exact (Except.ok.inj hp).symm

/-- Inversion: a populated history result comes from a nonempty collected
point list, and its stored locations are that list sorted by timestamp. -/
theorem core_populated_inv (segments : List (List ApiDict)) (hb : ℕ)
    (ia : Bool) (lh : LocationHistory)
    (h : get_location_history_core segments hb ia = .ok (.populated lh)) :
    ∃ locs, collectLocations segments = .ok locs ∧ locs ≠ [] ∧
      lh.locations = sortByTimestamp locs := by
  unfold get_location_history_core at h
  cases hcol : collectLocations segments with
  | error e => rw [hcol] at h; exact Except.noConfusion h
  | ok locs =>
    rw [hcol] at h
    simp only [] at h
    by_cases hie : locs.isEmpty
    · rw [if_pos hie] at h
      simp at h
    · have hne : locs ≠ [] := by simpa [List.isEmpty_iff] using hie
      refine ⟨locs, rfl, hne, ?_⟩
      rw [if_neg hie] at h
      cases ia with
      | false =>
        simp only [reduceIte] at h
        cases hpi : LocationHistory.postInit
            ⟨sortByTimestamp locs, 0, 0, 0, (hb : ℚ)⟩ with
        | error e => rw [hpi] at h; exact Except.noConfusion h
        | ok lh2 =>
          rw [hpi] at h
          have hl : lh = lh2 := by
            injection h with h1
            injection h1 with h2
            exact h2.symm
          rw [hl, LocationHistory.postInit_inversion _ _ hpi]
      | true =>
        cases hpi : LocationHistory.postInit
            ⟨sortByTimestamp locs,
             (analyticsLoop (sortByTimestamp locs)).1,
             (analyticsLoop (sortByTimestamp locs)).2.1,
             if ¬(analyticsLoop (sortByTimestamp locs)).2.2.isEmpty then
               (analyticsLoop (sortByTimestamp locs)).2.2.sum /
                 ((analyticsLoop (sortByTimestamp locs)).2.2.length : ℚ)
             else 0,
             (((sortByTimestamp locs).getLastI.timestamp -
                 (sortByTimestamp locs).headI.timestamp : ℤ) : ℚ) / 3600⟩ with
        | error e => rw [hpi] at h; exact Except.noConfusion h
        | ok lh2 =>
          rw [hpi] at h
          have hl : lh = lh2 := by
            injection h with h1
            injection h1 with h2
            exact h2.symm
          rw [hl, LocationHistory.postInit_inversion _ _ hpi]

/-! ## Claim theorems -/

/-- C6: Rate limiter blocking.  `wait_if_needed` first evicts recorded
timestamps older than 60 seconds (every timestamp retained besides the
newly recorded one is younger than 60 seconds); with a ceiling of 2 calls
per 60-second rolling window and two prior timestamps `t1, t2` still
inside the window, a third call at time `now` blocks until at least 60
seconds have elapsed since the first call's recorded timestamp
(`now + sleep = t1 + 60`), and then records the new call's timestamp
after the two retained ones. -/
theorem C6_rate_limiter (t1 t2 now : ℚ)
    (h1 : now - t1 < 60) (h2 : now - t2 < 60) :
    (∀ rl : RateLimiter, ∀ t ∈ (rl.wait_if_needed now).2.calls,
        t = now ∨ now - t < 60) ∧
    t1 + 60 ≤ now + (RateLimiter.wait_if_needed ⟨2, [t1, t2]⟩ now).1 ∧
    (RateLimiter.wait_if_needed ⟨2, [t1, t2]⟩ now).2.calls = [t1, t2, now] := by
  have hk : List.filter (fun t => decide (now - t < 60)) [t1, t2] = [t1, t2] := by
    simp [List.filter, h1, h2]
  refine ⟨?_, ?_, ?_⟩
  · intro rl t ht
    unfold RateLimiter.wait_if_needed at ht
    simp only [List.mem_append, List.mem_filter, List.mem_singleton,
      decide_eq_true_eq] at ht
    rcases ht with ⟨-, hlt⟩ | rfl
    · right; exact hlt
    · left; rfl
  · unfold RateLimiter.wait_if_needed
    simp only [hk, List.length_cons, List.length_nil]
    have hpos : (0:ℚ) < 60 - (now - t1) := by linarith
    simp only [hpos, reduceIte, if_pos (by norm_num : 2 ≤ 1 + 1 + 0)]
    linarith
  · unfold RateLimiter.wait_if_needed
    simp only [hk]
    rfl

/-- C6 witness at `t1 = 0`, `t2 = 10`, `now = 30`: the call sleeps until
time 60 and the state records the new timestamp. -/
theorem C6_rate_limiter_witness :
    (0:ℚ) + 60 ≤ 30 + (RateLimiter.wait_if_needed ⟨2, [0, 10]⟩ 30).1 ∧
    (RateLimiter.wait_if_needed ⟨2, [0, 10]⟩ 30).2.calls = [0, 10, 30] := by
  have h := C6_rate_limiter 0 10 30 (by norm_num) (by norm_num)
  exact ⟨h.2.1, h.2.2⟩

/-- C9: Radio operations require a connection.  In every connection state
other than CONNECTED, `get_battery_level` and `send_command` fail
immediately with the "Not connected" radio-transport error, attempting no
backend read or write (the backend-operation trace is empty). -/
theorem C9_radio_requires_connection (st : BLEConnectionState)
    (backend : BLEBackend) (command : String) (state : Option String)
    (h : st ≠ .connected) :
    get_battery_level st backend = (.error .notConnected, []) ∧
    ble_send_command st backend command state = (.error .notConnected, []) := by
  unfold get_battery_level ble_send_command
  simp [if_pos h]

/-- C9 witness: a disconnected session with an arbitrary backend fails
both operations with the connection error and touches no characteristic. -/
theorem C9_radio_requires_connection_witness :
    get_battery_level .disconnected ⟨fun _ => none, fun _ _ => none⟩ =
      (.error .notConnected, []) ∧
    ble_send_command .disconnected ⟨fun _ => none, fun _ _ => none⟩
      "light" (some "on") = (.error .notConnected, []) :=
  C9_radio_requires_connection .disconnected ⟨fun _ => none, fun _ _ => none⟩
    "light" (some "on") (by decide)

/-- C4 (amended): Authentication-failure classification and wrapping.
For every wire response with HTTP status 401: both transport handlers
classify it as an authentication failure, and 401 is not in the retry
status-forcelist, so the transport never silently retries it; but each
core client operation catches the propagated failure and re-raises it
wrapped in its operation-level kind — `APIError` (without a status) for
device status and commands, `GPSDataError` for GPS location and history —
so the caller does not receive it as an `AuthenticationError`. -/
theorem C4_auth_wrapping (r : HttpResponse) (h401 : r.status = 401) :
    handle_response r = .error .authenticationError ∧
    async_handle_response r = .error .authenticationError ∧
    401 ∉ retryStatusForcelist ∧
    (∀ trResp pf, get_device_status r trResp pf = .error (.apiError none)) ∧
    (∀ histResp ceiling, get_gps_location r histResp ceiling = .error .gpsDataError) ∧
    (∀ hb ia, get_location_history r hb ia = .error .gpsDataError) ∧
    send_command r = .error (.apiError none) := by
  have hs : handle_response r = .error .authenticationError := by
    unfold handle_response; rw [if_pos h401]
  refine ⟨hs, ?_, by decide, ?_, ?_, ?_, ?_⟩
  · unfold async_handle_response; rw [if_pos h401]
  · intro trResp pf; unfold get_device_status; rw [hs]
  · intro histResp ceiling; unfold get_gps_location; rw [hs]
  · intro hb ia; unfold get_location_history; rw [hs]
  · unfold send_command; rw [hs]

/-- C4 counterexample: a 401 response to the hardware-report call makes
`get_device_status` surface an `APIError` without a status code — not an
`AuthenticationError` — so the claim that the failure propagates to the
caller as an authentication failure is false on the code. -/
theorem C4_counterexample :
    get_device_status ⟨401, .empty⟩ ⟨200, .json (.dict [])⟩ false =
      .error (.apiError none) ∧
    TractiveErr.apiError none ≠ TractiveErr.authenticationError ∧
    ∀ e, get_device_status ⟨401, .empty⟩ ⟨200, .json (.dict [])⟩ false =
      .error e → e ≠ .authenticationError := by
  have h0 : get_device_status ⟨401, .empty⟩ ⟨200, .json (.dict [])⟩ false =
      .error (.apiError none) := rfl
  refine ⟨h0, by decide, ?_⟩
  intro e he
  rw [h0] at he
  injection he with h1
  rw [← h1]
  decide

/-- C4 witness: the concrete 401 response is classified as an
authentication failure by the transport and wrapped as `APIError` by the
command operation. -/
theorem C4_auth_wrapping_witness :
    handle_response ⟨401, .empty⟩ = .error .authenticationError ∧
    send_command ⟨401, .empty⟩ = .error (.apiError none) := by
  have h := C4_auth_wrapping ⟨401, .empty⟩ rfl
  exact ⟨h.1, h.2.2.2.2.2.2⟩

/-- Points whose parse fails with the caught kinds are all skipped. -/
theorem collectPoints_all_skipped (pts : List ApiDict)
    (h : ∀ p ∈ pts, GPSLocation.from_api_data p = .error .valueError ∨
      GPSLocation.from_api_data p = .error .keyError) :
    collectPoints pts = .ok [] := by
  induction pts with
  | nil => rfl
  | cons p rest ih =>
    have hp := h p (List.mem_cons_self p rest)
    have hr := ih (fun q hq => h q (List.mem_cons_of_mem p hq))
    unfold collectPoints
    rcases hp with hp | hp <;> rw [hp] <;> exact hr

/-- Segment-level version of `collectPoints_all_skipped`. -/
theorem collectLocations_all_skipped (segments : List (List ApiDict))
    (h : ∀ s ∈ segments, ∀ p ∈ s,
      GPSLocation.from_api_data p = .error .valueError ∨
      GPSLocation.from_api_data p = .error .keyError) :
    collectLocations segments = .ok [] := by
  induction segments with
  | nil => rfl
  | cons s rest ih =>
    unfold collectLocations
    rw [collectPoints_all_skipped s (h s (List.mem_cons_self s rest)),
      ih (fun t ht => h t (List.mem_cons_of_mem s ht))]
    rfl

/-- C8 (amended): Empty history is success for skippable parse failures.
When every point of every segment fails to parse with a `ValueError` or
`KeyError` — the kinds the point loop catches — `get_location_history`
raises no exception and returns the empty stand-in, whose
`location_count`, `total_distance`, `max_speed`, `average_speed` and
`time_span_hours` are all zero.  (A point raising a `TypeError`-shaped
failure instead aborts the whole query — see the counterexample.) -/
theorem C8_empty_history (segments : List (List ApiDict)) (hb : ℕ) (ia : Bool)
    (h : ∀ s ∈ segments, ∀ p ∈ s,
      GPSLocation.from_api_data p = .error .valueError ∨
      GPSLocation.from_api_data p = .error .keyError) :
    get_location_history_core segments hb ia = .ok .empty ∧
    HistoryResult.empty.location_count = 0 ∧
    HistoryResult.empty.total_distance = 0 ∧
    HistoryResult.empty.max_speed = 0 ∧
    HistoryResult.empty.average_speed = 0 ∧
    HistoryResult.empty.time_span_hours = 0 := by
  refine ⟨?_, rfl, rfl, rfl, rfl, rfl⟩
  unfold get_location_history_core
  rw [collectLocations_all_skipped segments h]
  rfl

/-- C8 counterexample: a query whose single point has JSON-null
coordinate elements has zero valid points, yet `get_location_history`
raises: `float(None)` raises `TypeError`, which the point loop does not
catch, so the enclosing handler converts it to `GPSDataError` instead of
returning the empty success result. -/
theorem C8_counterexample :
    GPSLocation.from_api_data ptNullCoords = .error .typeError ∧
    get_location_history_core [[ptNullCoords]] 24 true = .error .gpsDataError ∧
    ∀ res, get_location_history_core [[ptNullCoords]] 24 true ≠ .ok res := by
  have hmain : get_location_history_core [[ptNullCoords]] 24 true =
      .error .gpsDataError := by
    unfold get_location_history_core
    rw [show collectLocations [[ptNullCoords]] = .error .typeError from rfl]
  refine ⟨rfl, hmain, ?_⟩
  intro res hres
  rw [hmain] at hres
  exact Except.noConfusion hres

/-- C8 witness: a query whose single point has an empty `latlong` (a
skippable `ValueError` parse) returns the empty success result. -/
theorem C8_empty_history_witness :
    get_location_history_core [[ptEmptyLatlong]] 24 true = .ok .empty :=
  (C8_empty_history [[ptEmptyLatlong]] 24 true
    (by intro s hs p hp
        simp only [List.mem_singleton] at hs
        subst hs
        simp only [List.mem_singleton] at hp
        subst hp
        left
        rfl)).1

/-- C5 (amended): Time span semantics.  With analytics requested,
`time_span_hours` equals the actual data span
`(last.timestamp − first.timestamp)/3600` over the retained sorted
points; WITHOUT analytics the code stores the originally requested
`hours_back` instead. -/
theorem C5_time_span (segments : List (List ApiDict)) (hb : ℕ)
    (locs : List GPSLocation) (hcol : collectLocations segments = .ok locs)
    (hne : locs ≠ []) :
    (∃ lh, get_location_history_core segments hb true = .ok (.populated lh) ∧
      lh.time_span_hours =
        (((sortByTimestamp locs).getLastI.timestamp -
            (sortByTimestamp locs).headI.timestamp : ℤ) : ℚ) / 3600) ∧
    (∃ lh, get_location_history_core segments hb false = .ok (.populated lh) ∧
      lh.time_span_hours = (hb : ℚ)) :=
  ⟨⟨_, core_analytics_eq segments hb locs hcol hne, rfl⟩,
    ⟨_, core_no_analytics_eq segments hb locs hcol hne, rfl⟩⟩

/-- C5 counterexample: two valid points one hour apart, queried with
`hours_back = 24` and analytics NOT requested: `time_span_hours` is 24
(the requested range), while the actual data span is 1 hour, so the claim
that `time_span_hours` reflects the actual data span both with and
without analytics is false on the code. -/
theorem C5_counterexample :
    ∃ lh, get_location_history_core segsOneHour 24 false = .ok (.populated lh) ∧
      lh.time_span_hours = 24 ∧
      ((lh.locations.getLastI.timestamp - lh.locations.headI.timestamp : ℤ) : ℚ) / 3600 = 1 ∧
      lh.time_span_hours ≠
        ((lh.locations.getLastI.timestamp - lh.locations.headI.timestamp : ℤ) : ℚ) / 3600 := by
  have hcol : collectLocations segsOneHour =
      .ok [⟨1, 2, 0, 0, 0, 0, 0⟩, ⟨1, 2, 3600, 0, 0, 0, 0⟩] := rfl
  have hsort : sortByTimestamp [⟨1, 2, 0, 0, 0, 0, 0⟩, ⟨1, 2, 3600, 0, 0, 0, 0⟩] =
      [⟨1, 2, 0, 0, 0, 0, 0⟩, ⟨1, 2, 3600, 0, 0, 0, 0⟩] := by decide
  refine ⟨_, core_no_analytics_eq segsOneHour 24 _ hcol (by simp), rfl, ?_, ?_⟩
  · show ((3600 - 0 : ℤ) : ℚ) / 3600 = 1
    norm_num
  · show (24 : ℚ) ≠ ((3600 - 0 : ℤ) : ℚ) / 3600
    norm_num

/-- C5 witness: on the one-hour data set the analytics result carries the
actual one-hour span and the non-analytics result the requested 24. -/
theorem C5_time_span_witness :
    (∃ lh, get_location_history_core segsOneHour 24 true = .ok (.populated lh) ∧
      lh.time_span_hours =
        (((sortByTimestamp [⟨1, 2, 0, 0, 0, 0, 0⟩, ⟨1, 2, 3600, 0, 0, 0, 0⟩]).getLastI.timestamp -
            (sortByTimestamp [⟨1, 2, 0, 0, 0, 0, 0⟩, ⟨1, 2, 3600, 0, 0, 0, 0⟩]).headI.timestamp : ℤ) : ℚ) / 3600) ∧
    (∃ lh, get_location_history_core segsOneHour 24 false = .ok (.populated lh) ∧
      lh.time_span_hours = (24 : ℚ)) := by
  have h := C5_time_span segsOneHour 24
    [⟨1, 2, 0, 0, 0, 0, 0⟩, ⟨1, 2, 3600, 0, 0, 0, 0⟩] rfl (by simp)
  exact ⟨h.1, h.2⟩

/-- C7: History ordering and distance aggregation.  (1) Every populated
history result stores its points sorted by timestamp ascending, whatever
the order of the input segments.  (2) On three valid points arriving with
timestamps [100, 50, 150], the result's start and end locations have
timestamps 50 and 150 and `total_distance` is the sum of the two
consecutive-pair haversine distances taken in sorted order. -/
theorem C7_history_ordering :
    (∀ segments hb ia lh,
      get_location_history_core segments hb ia = .ok (.populated lh) →
      List.Sorted tsLE lh.locations) ∧
    (∃ lh, get_location_history_core segsOutOfOrder 24 true = .ok (.populated lh) ∧
      lh.start_location.timestamp = 50 ∧
      lh.end_location.timestamp = 150 ∧
      lh.total_distance = loc50.distance_to loc100 + loc100.distance_to loc150) := by
  constructor
  · intro segments hb ia lh h
    rcases core_populated_inv segments hb ia lh h with ⟨locs, -, -, hl⟩
    rw [hl]
    exact sortByTimestamp_sorted locs
  · have hcol : collectLocations segsOutOfOrder = .ok [loc100, loc50, loc150] := rfl
    refine ⟨_, core_analytics_eq segsOutOfOrder 24 [loc100, loc50, loc150] hcol (by simp), ?_, ?_, ?_⟩
    · show (sortByTimestamp [loc100, loc50, loc150]).headI.timestamp = 50
      decide
    · show (sortByTimestamp [loc100, loc50, loc150]).getLastI.timestamp = 150
      decide
    · show (((sortByTimestamp [loc100, loc50, loc150]).zip
          (sortByTimestamp [loc100, loc50, loc150]).tail).map
          (fun pq => pq.1.distance_to pq.2)).sum =
        loc50.distance_to loc100 + loc100.distance_to loc150
      have hsort : sortByTimestamp [loc100, loc50, loc150] = [loc50, loc100, loc150] := by
        decide
      rw [hsort]
      show loc50.distance_to loc100 + (loc100.distance_to loc150 + 0) =
        loc50.distance_to loc100 + loc100.distance_to loc150
      ring

/-- C7 witness: the sortedness statement applied to the concrete
out-of-order input. -/
theorem C7_history_ordering_witness :
    ∃ lh, get_location_history_core segsOutOfOrder 24 true = .ok (.populated lh) ∧
      List.Sorted tsLE lh.locations := by
  rcases C7_history_ordering.2 with ⟨lh, hcore, -, -, -⟩
  exact ⟨lh, hcore, C7_history_ordering.1 segsOutOfOrder 24 true lh hcore⟩

/-- C1 (amended): History analytics.  With analytics requested and at
least two retained points, `total_distance` is the sum of the haversine
distances of consecutive sorted pairs; but the per-pair quantity the loop
records is the *reported* `speed` field of the later point of each pair
(not distance/elapsed-seconds × 3.6): `max_speed` is the maximum of these
reported speeds (never below its 0.0 seed) and `average_speed` is their
simple mean. -/
theorem C1_analytics (segments : List (List ApiDict)) (hb : ℕ)
    (locs : List GPSLocation) (hcol : collectLocations segments = .ok locs)
    (h2 : 2 ≤ locs.length) :
    ∃ lh, get_location_history_core segments hb true = .ok (.populated lh) ∧
      lh.locations = sortByTimestamp locs ∧
      lh.total_distance =
        (((sortByTimestamp locs).zip (sortByTimestamp locs).tail).map
          (fun pq => pq.1.distance_to pq.2)).sum ∧
      (∀ s ∈ tailSpeeds (sortByTimestamp locs), s ≤ lh.max_speed) ∧
      (lh.max_speed = 0 ∨ lh.max_speed ∈ tailSpeeds (sortByTimestamp locs)) ∧
      lh.average_speed = (tailSpeeds (sortByTimestamp locs)).sum /
        ((tailSpeeds (sortByTimestamp locs)).length : ℚ) := by
  have hne : locs ≠ [] := by
    intro hc
    rw [hc] at h2
    simp at h2
  refine ⟨_, core_analytics_eq segments hb locs hcol hne, rfl, rfl, ?_, ?_, ?_⟩
  · intro s hs
    exact foldl_max_ge _ 0 s hs
  · exact foldl_max_mem _ 0
  · have hlen : (sortByTimestamp locs).length = locs.length :=
      (sortByTimestamp_perm locs).length_eq
    have htail : ¬ (tailSpeeds (sortByTimestamp locs)).isEmpty := by
      unfold tailSpeeds
      rw [List.isEmpty_iff, List.map_eq_nil_iff]
      intro hc
      have := List.length_tail (sortByTimestamp locs)
      rw [hc, hlen] at this
      simp at this
      omega
    simp [htail]

/-- C1 counterexample: two points at the same coordinates ten seconds
apart, the later reporting speed 5 km/h.  The pair's haversine distance
is 0, so the claim's per-pair running speed (distance/elapsed × 3.6) is 0
and its `max_speed` and `average_speed` would both be 0; the code's
result has `max_speed = average_speed = 5`, the reported `speed` field —
the claim's formula is false on the code. -/
theorem C1_counterexample :
    ∃ lh, get_location_history_core segsSameCoords 24 true = .ok (.populated lh) ∧
      specPairSpeed ⟨10, 20, 0, 0, 0, 0, 0⟩ ⟨10, 20, 10, 0, 0, 5, 0⟩ = 0 ∧
      lh.max_speed = 5 ∧ lh.average_speed = 5 ∧
      (lh.max_speed : ℝ) ≠
        specPairSpeed ⟨10, 20, 0, 0, 0, 0, 0⟩ ⟨10, 20, 10, 0, 0, 5, 0⟩ := by
  have hcol : collectLocations segsSameCoords =
      .ok [⟨10, 20, 0, 0, 0, 0, 0⟩, ⟨10, 20, 10, 0, 0, 5, 0⟩] := rfl
  have hspec : specPairSpeed ⟨10, 20, 0, 0, 0, 0, 0⟩ ⟨10, 20, 10, 0, 0, 5, 0⟩ = 0 := by
    unfold specPairSpeed
    rw [if_neg (by decide)]
    rw [distance_to_self_coords ⟨10, 20, 0, 0, 0, 0, 0⟩ ⟨10, 20, 10, 0, 0, 5, 0⟩ rfl rfl]
    simp
  have hmax : (tailSpeeds (sortByTimestamp
      [⟨10, 20, 0, 0, 0, 0, 0⟩, ⟨10, 20, 10, 0, 0, 5, 0⟩])).foldl max 0 = 5 := by
    decide
  refine ⟨_, core_analytics_eq segsSameCoords 24 _ hcol (by simp), hspec, hmax, ?_, ?_⟩
  · show ((5 : ℚ) + 0) / ((1 : ℕ) : ℚ) = 5
    norm_num
  · rw [hmax, hspec]
    norm_num

/-- C1 witness: the amended analytics characterisation instantiated on
the two-point same-coordinates data set. -/
theorem C1_analytics_witness :
    ∃ lh, get_location_history_core segsSameCoords 24 true = .ok (.populated lh) ∧
      lh.locations = sortByTimestamp
        [⟨10, 20, 0, 0, 0, 0, 0⟩, ⟨10, 20, 10, 0, 0, 5, 0⟩] ∧
      lh.total_distance =
        (((sortByTimestamp [⟨10, 20, 0, 0, 0, 0, 0⟩, ⟨10, 20, 10, 0, 0, 5, 0⟩]).zip
          (sortByTimestamp [⟨10, 20, 0, 0, 0, 0, 0⟩, ⟨10, 20, 10, 0, 0, 5, 0⟩]).tail).map
          (fun pq => pq.1.distance_to pq.2)).sum ∧
      (∀ s ∈ tailSpeeds (sortByTimestamp
          [⟨10, 20, 0, 0, 0, 0, 0⟩, ⟨10, 20, 10, 0, 0, 5, 0⟩]), s ≤ lh.max_speed) ∧
      (lh.max_speed = 0 ∨ lh.max_speed ∈ tailSpeeds (sortByTimestamp
          [⟨10, 20, 0, 0, 0, 0, 0⟩, ⟨10, 20, 10, 0, 0, 5, 0⟩])) ∧
      lh.average_speed = (tailSpeeds (sortByTimestamp
          [⟨10, 20, 0, 0, 0, 0, 0⟩, ⟨10, 20, 10, 0, 0, 5, 0⟩])).sum /
        ((tailSpeeds (sortByTimestamp
          [⟨10, 20, 0, 0, 0, 0, 0⟩, ⟨10, 20, 10, 0, 0, 5, 0⟩])).length : ℚ) :=
  C1_analytics segsSameCoords 24
    [⟨10, 20, 0, 0, 0, 0, 0⟩, ⟨10, 20, 10, 0, 0, 5, 0⟩] rfl (by decide)

/-- The fallback search fails exactly when every tried `hours_back` value
fails to yield a parseable fix. -/
theorem fallbackSearch_error_iff (histResp : ℕ → HttpResponse) (hs : List ℕ) :
    (∃ e, fallbackSearch histResp hs = .error e) ↔
      ∀ x ∈ hs, ∃ e, get_historical_gps_location histResp x = .error e := by
  induction hs with
  | nil => simp [fallbackSearch]
  | cons a t ih =>
    constructor
    · rintro ⟨e, he⟩ x hx
      unfold fallbackSearch at he
      cases hg : get_historical_gps_location histResp a with
      | ok loc => rw [hg] at he; exact Except.noConfusion he
      | error e2 =>
        rw [hg] at he
        rcases List.mem_cons.mp hx with rfl | hx'
        · exact ⟨e2, hg⟩
        · exact ih.mp ⟨e, he⟩ x hx'
    · intro h
      unfold fallbackSearch
      rcases h a (List.mem_cons_self a t) with ⟨e2, hg⟩
      rw [hg]
      exact ih.mpr (fun x hx => h x (List.mem_cons_of_mem a hx))

/-- The fallback search only ever fails with the GPS-data-unavailable
kind. -/
theorem fallbackSearch_error_kind (histResp : ℕ → HttpResponse) (hs : List ℕ)
    (e : TractiveErr) (he : fallbackSearch histResp hs = .error e) :
    e = .gpsDataError := by
  induction hs with
  | nil =>
    unfold fallbackSearch at he
    exact (Except.error.inj he).symm
  | cons a t ih =>
    unfold fallbackSearch at he
    cases hg : get_historical_gps_location histResp a with
    | ok loc => rw [hg] at he; exact Except.noConfusion he
    | error e2 => rw [hg] at he; exact ih he

/-- The fallback search returns the first success in try order. -/
theorem fallbackSearch_first_success (histResp : ℕ → HttpResponse)
    (pre post : List ℕ) (h : ℕ) (loc : GPSLocation)
    (hfail : ∀ x ∈ pre, ∃ e, get_historical_gps_location histResp x = .error e)
    (hok : get_historical_gps_location histResp h = .ok loc) :
    fallbackSearch histResp (pre ++ h :: post) = .ok loc := by
  induction pre with
  | nil =>
    simp only [List.nil_append]
    unfold fallbackSearch
    rw [hok]
  | cons a t ih =>
    rcases hfail a (List.mem_cons_self a t) with ⟨e, he⟩
    simp only [List.cons_append]
    unfold fallbackSearch
    rw [he]
    exact ih (fun x hx => hfail x (List.mem_cons_of_mem a hx))

/-- A primary response whose parse raises `ValueError` sends
`get_gps_location` into the historical fallback, wrapped by the outer
handler. -/
theorem get_gps_location_fallback_eq (primary : HttpResponse)
    (histResp : ℕ → HttpResponse) (ceiling : ℕ) (d : ApiDict)
    (hb : handle_response primary = .ok (.dict d))
    (hparse : GPSLocation.from_api_data d = .error .valueError) :
    get_gps_location primary histResp ceiling =
      wrapGps (gps_fallback histResp ceiling) := by
  unfold get_gps_location
  rw [hb]
  show (match GPSLocation.from_api_data d with
    | .ok loc => .ok loc
    | .error .valueError => wrapGps (gps_fallback histResp ceiling)
    | .error .keyError => wrapGps (gps_fallback histResp ceiling)
    | .error .indexError => wrapGps (gps_fallback histResp ceiling)
    | .error _ => .error .gpsDataError) = wrapGps (gps_fallback histResp ceiling)
  rw [hparse]

/-- Wrapping is invisible on the fallback result: its failures are
already of the GPS-data kind. -/
theorem wrapGps_gps_fallback (histResp : ℕ → HttpResponse) (ceiling : ℕ) :
    wrapGps (gps_fallback histResp ceiling) = gps_fallback histResp ceiling := by
  unfold wrapGps
  cases hg : gps_fallback histResp ceiling with
  | ok loc => rfl
  | error e =>
    have he : e = .gpsDataError := fallbackSearch_error_kind histResp _ e hg
    rw [he]

/-- C2 (amended): Location resolver fallback.  For every delivered
primary payload whose parse fails with a `ValueError` (`latlong` present
but empty, too short or falsy; an unparseable field; or range-invalid
values), `get_gps_location` does not raise from the primary parse but
runs the historical search over `hours_back = 1 .. ceiling`, taking at
each step the positionally final entry of the first returned segment; it
raises the GPS-data-unavailable error if and only if every `hours_back`
value fails to yield a parseable fix, and otherwise returns the first
success in order.  (A payload with the coordinate key entirely *missing*
parses as the `(0,0)` fix with no fallback — see the counterexample — and
a `TypeError`-shaped payload aborts without fallback.) -/
theorem C2_fallback (primary : HttpResponse) (histResp : ℕ → HttpResponse)
    (ceiling : ℕ) (d : ApiDict)
    (hb : handle_response primary = .ok (.dict d))
    (hparse : GPSLocation.from_api_data d = .error .valueError) :
    get_gps_location primary histResp ceiling = gps_fallback histResp ceiling ∧
    (get_gps_location primary histResp ceiling = .error .gpsDataError ↔
      ∀ x ∈ List.range' 1 ceiling, ∃ e,
        get_historical_gps_location histResp x = .error e) ∧
    (∀ pre post h loc, List.range' 1 ceiling = pre ++ h :: post →
      (∀ x ∈ pre, ∃ e, get_historical_gps_location histResp x = .error e) →
      get_historical_gps_location histResp h = .ok loc →
      get_gps_location primary histResp ceiling = .ok loc) := by
  have heq : get_gps_location primary histResp ceiling =
      gps_fallback histResp ceiling := by
    rw [get_gps_location_fallback_eq primary histResp ceiling d hb hparse,
      wrapGps_gps_fallback]
  refine ⟨heq, ?_, ?_⟩
  · rw [heq]
    constructor
    · intro he
      exact (fallbackSearch_error_iff histResp _).mp ⟨_, he⟩
    · intro hall
      rcases (fallbackSearch_error_iff histResp _).mpr hall with ⟨e, he⟩
      have hk := fallbackSearch_error_kind histResp _ e he
      rw [← hk]
      exact he
  · intro pre post h loc hsplit hfail hok
    rw [heq]
    unfold gps_fallback
    rw [hsplit]
    exact fallbackSearch_first_success histResp pre post h loc hfail hok

/-- C2 counterexample: a primary response whose payload lacks the
coordinate key entirely ("coordinate pair missing").  The claim requires
falling back to the historical fix (here the time-999 point, which the
fallback would find at `hours_back = 1`); instead the parser defaults the
coordinates and the resolver returns the `(0, 0)` fix with timestamp 0,
never invoking the fallback. -/
theorem C2_counterexample :
    get_gps_location primaryNoLatlong histGood 24 = .ok ⟨0, 0, 0, 0, 0, 0, 0⟩ ∧
    gps_fallback histGood 24 = .ok ⟨7, 8, 999, 0, 0, 0, 0⟩ ∧
    get_gps_location primaryNoLatlong histGood 24 ≠ gps_fallback histGood 24 := by
  refine ⟨rfl, rfl, ?_⟩
  intro h
  rw [show get_gps_location primaryNoLatlong histGood 24 =
      .ok ⟨0, 0, 0, 0, 0, 0, 0⟩ from rfl,
    show gps_fallback histGood 24 = .ok ⟨7, 8, 999, 0, 0, 0, 0⟩ from rfl] at h
  injection h with h1
  exact absurd h1 (by decide)

/-- C2 witness: a primary payload with an empty `latlong` (a `ValueError`
parse) resolves through the fallback, here to the time-999 historical
fix. -/
theorem C2_fallback_witness :
    get_gps_location primaryEmptyLatlong histGood 24 =
      gps_fallback histGood 24 :=
  (C2_fallback primaryEmptyLatlong histGood 24 [("latlong", .arr [])]
    rfl rfl).1

/-- Both transport handlers accept a 2xx JSON body identically. -/
theorem handlers_ok_of_2xx (r : HttpResponse) (v : PVal)
    (hst : 200 ≤ r.status ∧ r.status < 300) (hbody : r.body = .json v) :
    handle_response r = .ok v ∧ async_handle_response r = .ok v := by
  have h401 : ¬ r.status = 401 := by omega
  have h429 : ¬ r.status = 429 := by omega
  have hlt : r.status < 400 := by omega
  constructor
  · unfold handle_response
    rw [if_neg h401, if_neg h429, if_neg (not_not_intro hlt), hbody]
  · unfold async_handle_response
    rw [if_neg h401, if_neg h429, if_neg (not_not_intro hst), hbody]

/-- C3 (amended): Sync/async equivalence holds for parseable responses
only.  For every 2xx JSON-dict wire response to the current-position
request: if the payload parses, the synchronous and the asynchronous
`get_gps_location` return the identical fix; if the parse fails, the
asynchronous client raises `GPSDataError` at once (it has no cache and no
fallback), while the synchronous client either raises the same
`GPSDataError` kind or returns a fix recovered by its historical
fallback — on such responses the two clients are NOT equivalent. -/
theorem C3_sync_async (primary : HttpResponse) (histResp : ℕ → HttpResponse)
    (ceiling : ℕ) (d : ApiDict)
    (hst : 200 ≤ primary.status ∧ primary.status < 300)
    (hbody : primary.body = .json (.dict d)) :
    (∀ loc, GPSLocation.from_api_data d = .ok loc →
      get_gps_location primary histResp ceiling = .ok loc ∧
      async_get_gps_location primary = .ok loc) ∧
    (∀ e, GPSLocation.from_api_data d = .error e →
      async_get_gps_location primary = .error .gpsDataError ∧
      (get_gps_location primary histResp ceiling = .error .gpsDataError ∨
        ∃ loc, get_gps_location primary histResp ceiling = .ok loc ∧
          gps_fallback histResp ceiling = .ok loc)) := by
  rcases handlers_ok_of_2xx primary (.dict d) hst hbody with ⟨hs, ha⟩
  constructor
  · intro loc hloc
    constructor
    · unfold get_gps_location
      rw [hs]
      show ((match GPSLocation.from_api_data d with
        | .ok loc => .ok loc
        | .error .valueError => wrapGps (gps_fallback histResp ceiling)
        | .error .keyError => wrapGps (gps_fallback histResp ceiling)
        | .error .indexError => wrapGps (gps_fallback histResp ceiling)
        | .error _ => .error .gpsDataError) : Except TractiveErr GPSLocation) = .ok loc
      rw [hloc]
    · unfold async_get_gps_location
      rw [ha]
      show ((match GPSLocation.from_api_data d with
        | .ok loc => .ok loc
        | .error _ => .error .gpsDataError) : Except TractiveErr GPSLocation) = .ok loc
      rw [hloc]
  · intro e he
    constructor
    · unfold async_get_gps_location
      rw [ha]
      show ((match GPSLocation.from_api_data d with
        | .ok loc => .ok loc
        | .error _ => .error .gpsDataError) : Except TractiveErr GPSLocation) =
        .error .gpsDataError
      rw [he]
    · have hsync : ∀ k, GPSLocation.from_api_data d = .error k →
          (k = .valueError ∨ k = .keyError ∨ k = .indexError) →
          get_gps_location primary histResp ceiling =
            wrapGps (gps_fallback histResp ceiling) := by
        intro k hk hks
        unfold get_gps_location
        rw [hs]
        show (match GPSLocation.from_api_data d with
          | .ok loc => .ok loc
          | .error .valueError => wrapGps (gps_fallback histResp ceiling)
          | .error .keyError => wrapGps (gps_fallback histResp ceiling)
          | .error .indexError => wrapGps (gps_fallback histResp ceiling)
          | .error _ => .error .gpsDataError) =
          wrapGps (gps_fallback histResp ceiling)
        rw [hk]
        rcases hks with rfl | rfl | rfl <;> rfl
      cases e with
      | typeError =>
        left
        unfold get_gps_location
        rw [hs]
        show ((match GPSLocation.from_api_data d with
          | .ok loc => .ok loc
          | .error .valueError => wrapGps (gps_fallback histResp ceiling)
          | .error .keyError => wrapGps (gps_fallback histResp ceiling)
          | .error .indexError => wrapGps (gps_fallback histResp ceiling)
          | .error _ => .error .gpsDataError) : Except TractiveErr GPSLocation) = .error .gpsDataError
        rw [he]
      | valueError =>
        have heq := hsync _ he (Or.inl rfl)
        rw [heq, wrapGps_gps_fallback]
        cases hg : gps_fallback histResp ceiling with
        | ok loc => exact Or.inr ⟨loc, rfl, rfl⟩
        | error e2 =>
          left
          rw [fallbackSearch_error_kind histResp _ e2 hg]
      | keyError =>
        have heq := hsync _ he (Or.inr (Or.inl rfl))
        rw [heq, wrapGps_gps_fallback]
        cases hg : gps_fallback histResp ceiling with
        | ok loc => exact Or.inr ⟨loc, rfl, rfl⟩
        | error e2 =>
          left
          rw [fallbackSearch_error_kind histResp _ e2 hg]
      | indexError =>
        have heq := hsync _ he (Or.inr (Or.inr rfl))
        rw [heq, wrapGps_gps_fallback]
        cases hg : gps_fallback histResp ceiling with
        | ok loc => exact Or.inr ⟨loc, rfl, rfl⟩
        | error e2 =>
          left
          rw [fallbackSearch_error_kind histResp _ e2 hg]

/-- C3 counterexample: on a 200 response whose `latlong` is present but
empty, the synchronous client recovers the time-999 fix through its
fallback while the asynchronous client raises `GPSDataError` — the two
clients do not produce the identical result for this wire response. -/
theorem C3_counterexample :
    get_gps_location primaryEmptyLatlong histGood 24 = .ok ⟨7, 8, 999, 0, 0, 0, 0⟩ ∧
    async_get_gps_location primaryEmptyLatlong = .error .gpsDataError ∧
    get_gps_location primaryEmptyLatlong histGood 24 ≠
      async_get_gps_location primaryEmptyLatlong := by
  refine ⟨rfl, rfl, ?_⟩
  intro h
  rw [show get_gps_location primaryEmptyLatlong histGood 24 =
      .ok ⟨7, 8, 999, 0, 0, 0, 0⟩ from rfl,
    show async_get_gps_location primaryEmptyLatlong =
      .error .gpsDataError from rfl] at h
  exact Except.noConfusion h

/-- C3 witness: on a parseable 200 response both clients return the
identical fix. -/
theorem C3_sync_async_witness :
    get_gps_location ⟨200, .json (.dict histPointGood)⟩ histGood 24 =
      .ok ⟨7, 8, 999, 0, 0, 0, 0⟩ ∧
    async_get_gps_location ⟨200, .json (.dict histPointGood)⟩ =
      .ok ⟨7, 8, 999, 0, 0, 0, 0⟩ :=
  (C3_sync_async ⟨200, .json (.dict histPointGood)⟩ histGood 24 histPointGood
    (by constructor <;> norm_num) rfl).1 ⟨7, 8, 999, 0, 0, 0, 0⟩ rfl

/-- Inversion of the fix validation: success returns the validated value
itself, with its ranges certified. -/
theorem GPSLocation.postInit_inv (x loc : GPSLocation)
    (h : x.postInit = .ok loc) : loc = x := by
  unfold GPSLocation.postInit at h
  split_ifs at h
  all_goals
    first
    | exact Except.noConfusion h
    | exact (Except.ok.inj h).symm

/-- Inversion of a successful `Except` bind. -/
theorem except_bind_ok_inv {ε α β : Type} {m : Except ε α}
    {f : α → Except ε β} {y : β} (h : (m >>= f) = .ok y) :
    ∃ v, m = .ok v ∧ f v = .ok y := by
  cases m with
  | ok v => exact ⟨v, rfl, h⟩
  | error e => exact Except.noConfusion h

/-- Fix validation passes on in-range values. -/
theorem GPSLocation.postInit_ok_of_ranges (x : GPSLocation)
    (hlat : -90 ≤ x.latitude ∧ x.latitude ≤ 90)
    (hlon : -180 ≤ x.longitude ∧ x.longitude ≤ 180)
    (hunc : 0 ≤ x.uncertainty) :
    x.postInit = .ok x := by
  unfold GPSLocation.postInit
  rw [if_neg (not_not_intro hlat), if_neg (not_not_intro hlon),
    if_neg (not_lt.mpr hunc)]

/-- C10 (amended): Implicit parser default.  (1) For every payload
without the `latlong` key whose parse succeeds, the fix has latitude 0
and longitude 0.  (2) The empty payload parses without raising, all
fields defaulted to 0.  (3) Whenever the effective `latlong` value
(present or defaulted) is a list of length ≥ 2 whose first two elements
convert, every other present field converts, and the converted values
satisfy the range validation, the parse succeeds with exactly those
values — so the parser raises only when the coordinate container is
present but ill-shaped, when a present field is unparseable, or when the
converted values violate the range validation (the case the original
claim omitted). -/
theorem C10_parser_default :
    (∀ (d : ApiDict) (loc : GPSLocation), dictGet? d "latlong" = none →
      GPSLocation.from_api_data d = .ok loc →
      loc.latitude = 0 ∧ loc.longitude = 0) ∧
    (GPSLocation.from_api_data [] = .ok ⟨0, 0, 0, 0, 0, 0, 0⟩) ∧
    (∀ (d : ApiDict) (a b : PVal) (rest : List PVal) (lat lon : ℚ) (ts : ℤ)
       (unc alt spd crs : ℚ),
      dictGet d "latlong" (.arr [.num 0, .num 0]) = .arr (a :: b :: rest) →
      pyFloat a = .ok lat →
      pyFloat b = .ok lon →
      pyInt (dictGet d "time" (.num 0)) = .ok ts →
      pyFloat (dictGet d "pos_uncertainty" (.num 0)) = .ok unc →
      pyFloat (dictGet d "altitude" (dictGet d "alt" (.num 0))) = .ok alt →
      pyFloat (dictGet d "speed" (.num 0)) = .ok spd →
      pyFloat (dictGet d "course" (.num 0)) = .ok crs →
      -90 ≤ lat ∧ lat ≤ 90 →
      -180 ≤ lon ∧ lon ≤ 180 →
      0 ≤ unc →
      GPSLocation.from_api_data d = .ok ⟨lat, lon, ts, unc, alt, spd, crs⟩) := by
  refine ⟨?_, rfl, ?_⟩
  · intro d loc hmiss hok
    have hdef : dictGet d "latlong" (.arr [.num 0, .num 0]) =
        .arr [.num 0, .num 0] := by
      unfold dictGet
      unfold dictGet? at hmiss
      rw [hmiss]
      rfl
    unfold GPSLocation.from_api_data at hok
    rw [hdef] at hok
    rcases except_bind_ok_inv hok with ⟨lat, hlat, hok⟩
    rcases except_bind_ok_inv hok with ⟨lon, hlon, hok⟩
    rcases except_bind_ok_inv hok with ⟨ts, -, hok⟩
    rcases except_bind_ok_inv hok with ⟨unc, -, hok⟩
    rcases except_bind_ok_inv hok with ⟨alt, -, hok⟩
    rcases except_bind_ok_inv hok with ⟨spd, -, hok⟩
    rcases except_bind_ok_inv hok with ⟨crs, -, hok⟩
    have hloc := GPSLocation.postInit_inv _ _ hok
    have hlat0 : lat = 0 := Except.ok.inj hlat.symm
    have hlon0 : lon = 0 := Except.ok.inj hlon.symm
    rw [hloc, hlat0, hlon0]
    exact ⟨rfl, rfl⟩
  · intro d a b rest lat lon ts unc alt spd crs hll hla hlb hts hunc halt hspd hcrs
      hrlat hrlon hrunc
    unfold GPSLocation.from_api_data
    rw [hll]
    show (pyFloat a >>= fun lat => pyFloat b >>= fun lon =>
        pyInt (dictGet d "time" (.num 0)) >>= fun ts =>
        pyFloat (dictGet d "pos_uncertainty" (.num 0)) >>= fun unc =>
        pyFloat (dictGet d "altitude" (dictGet d "alt" (.num 0))) >>= fun alt =>
        pyFloat (dictGet d "speed" (.num 0)) >>= fun spd =>
        pyFloat (dictGet d "course" (.num 0)) >>= fun crs =>
        GPSLocation.postInit ⟨lat, lon, ts, unc, alt, spd, crs⟩) =
      .ok ⟨lat, lon, ts, unc, alt, spd, crs⟩
    rw [hla, hlb, hts, hunc, halt, hspd, hcrs]
    show GPSLocation.postInit ⟨lat, lon, ts, unc, alt, spd, crs⟩ =
      .ok ⟨lat, lon, ts, unc, alt, spd, crs⟩
    exact GPSLocation.postInit_ok_of_ranges _ hrlat hrlon hrunc

/-- C10 counterexample: a payload whose `latlong` is present with two
parseable numeric elements `[200, 0]` still raises (`ValueError` from the
latitude range validation) — so "raises only when latlong is present but
empty or shorter than two elements, or when a present field is
unparseable" is false on the code. -/
theorem C10_counterexample :
    GPSLocation.from_api_data dictBadLatitude = .error .valueError ∧
    dictGet? dictBadLatitude "latlong" = some (.arr [.num 200, .num 0]) ∧
    pyFloat (.num 200) = .ok 200 ∧
    pyFloat (.num 0) = .ok 0 :=
  ⟨rfl, rfl, rfl, rfl⟩

/-- C10 witness: the missing-key conjunct applied to a payload carrying
only a time field, and the success characterisation applied to a payload
with in-range coordinates. -/
theorem C10_parser_default_witness :
    ((⟨0, 0, 7, 0, 0, 0, 0⟩ : GPSLocation).latitude = 0 ∧
      (⟨0, 0, 7, 0, 0, 0, 0⟩ : GPSLocation).longitude = 0) ∧
    GPSLocation.from_api_data
        [("latlong", .arr [.num 3, .num 4]), ("time", .num 5), ("speed", .num 6)] =
      .ok ⟨3, 4, 5, 0, 0, 6, 0⟩ :=
  ⟨C10_parser_default.1 [("time", .num 7)] ⟨0, 0, 7, 0, 0, 0, 0⟩ rfl rfl,
    C10_parser_default.2.2
      [("latlong", .arr [.num 3, .num 4]), ("time", .num 5), ("speed", .num 6)]
      (.num 3) (.num 4) [] 3 4 5 0 0 6 0 rfl rfl rfl rfl rfl rfl rfl rfl
      (by norm_num) (by norm_num) (le_refl 0)⟩

end PyTractive
